import Mathlib

/-!
Verification of the state-synchronization and dispatch core of the
SooperLooper terminal control surface (sooperGUI.go).

The Go source is shallowly embedded:

* float32/float64 values are modelled as rationals (ℚ); the real-valued
  meter math (math.Log10 / math.Pow) is modelled over ℝ;
* the mutable global state (loopCount, loopStates map) becomes an explicit
  GuiState record threaded through the handlers;
* OSC messages are an address string plus a list of tagged arguments,
  mirroring the closed type set the dispatcher inspects (int32, string,
  float32, float64);
* Go string helpers (strings.Split, strings.Contains, strconv.Atoi and the
  anchored gain-path regular expression) are re-implemented structurally
  over character lists so that everything reduces inside the kernel.
-/

namespace SooperGUI

/-- One per-loop record; Go struct LoopState (sooperGUI.go lines 30-37).
The Go zero value corresponds to all fields zero. -/
structure LoopState where
  state : Int
  nextState : Int
  loopPos : ℚ
  inPeakMeter : ℚ
  outPeakMeter : ℚ
  wet : ℚ
  deriving DecidableEq, Repr

/-- Go zero value of LoopState, produced by the lazy map entry creation. -/
def LoopState.zero : LoopState := ⟨0, 0, 0, 0, 0, 0⟩

/-- The shared mutable state touched by the dispatcher: the loopCount
global and the loopStates map (index to entry, nil when absent). -/
structure GuiState where
  loopCount : Int
  loopStates : Int → Option LoopState

/-- Go getLoopState (lines 564-569) returns the entry, lazily creating a
zero-valued one.  Every call site immediately writes a field, so the
create-then-mutate pair is modelled by reading with a zero default and
writing the updated record back with setLoopState. -/
def getLoopState (st : GuiState) (idx : Int) : LoopState :=
  (st.loopStates idx).getD LoopState.zero

/-- Store an entry in the loopStates map. -/
def setLoopState (st : GuiState) (idx : Int) (ls : LoopState) : GuiState :=
  { st with loopStates := fun i => if i = idx then some ls else st.loopStates i }

/-- One decoded OSC argument; the closed type set the Go type switches
inspect: int32, string, float32, float64. -/
inductive OscArg where
  | int (i : Int)
  | str (s : String)
  | float (v : ℚ)
  | double (v : ℚ)
  deriving DecidableEq, Repr

def OscArg.isInt : OscArg → Bool
  | .int _ => true
  | _ => false

def OscArg.isStr : OscArg → Bool
  | .str _ => true
  | _ => false

/-- True for the two argument shapes commonUpdate's value switch accepts. -/
def OscArg.isFloatLike : OscArg → Bool
  | .float _ => true
  | .double _ => true
  | _ => false

/-- A decoded OSC message: address plus argument list. -/
structure OscMessage where
  address : String
  args : List OscArg

/-- Go strings.Split(s, sep) for the one-character separator used by
parseLoopIndex; Split of the empty string is the one-element list holding
the empty string. -/
def splitOnSlash : List Char → List (List Char)
  | [] => [[]]
  | c :: rest =>
    if c = '/' then [] :: splitOnSlash rest
    else
      match splitOnSlash rest with
      | h :: t => (c :: h) :: t
      | [] => [[c]]

/-- The base-10 digit run of strconv.Atoi: nonempty, all ASCII digits. -/
def digitsToNat : List Char → Option Nat
  | [] => none
  | l =>
    if l.all Char.isDigit then
      some (l.foldl (fun acc c => 10 * acc + (c.toNat - 48)) 0)
    else none

/-- Go strconv.Atoi: optional sign followed by a nonempty digit run
(overflow, which Atoi reports as an error, is out of the claims' range). -/
def goAtoi (l : List Char) : Option Int :=
  match l with
  | '-' :: ds => (digitsToNat ds).map (fun n => -(n : Int))
  | '+' :: ds => (digitsToNat ds).map (fun n => (n : Int))
  | ds => (digitsToNat ds).map (fun n => (n : Int))

/-- Go strings.Contains(s, sub). -/
def containsList (s sub : List Char) : Bool :=
  match s with
  | [] => sub.isEmpty
  | _ :: t => sub.isPrefixOf s || containsList t sub

def goContains (s sub : String) : Bool :=
  containsList s.toList sub.toList

/-- Go parseLoopIndex (lines 554-562): take the second path segment of the
address; if it parses as a decimal integer return it, else return 0. -/
def parseLoopIndex (addr : String) : Int :=
  let p := splitOnSlash addr.toList
  if p.length > 2 then
    match goAtoi (p.getD 2 []) with
    | some i => i
    | none => 0
  else 0

/-- The anchored regular expression stripGainPathRegex (line 48):
the address must be exactly "/strip/Sooper" ++ digits ++ "/Gain/Gain%20(dB)"
with a nonempty digit run, whose value is returned (Atoi on a matched digit
run cannot fail, and the Go code discards the error anyway). -/
def matchStripGain (addr : String) : Option Int :=
  let l := addr.toList
  let pre := "/strip/Sooper".toList
  let suf := "/Gain/Gain%20(dB)".toList
  if pre.isPrefixOf l && suf.isSuffixOf l then
    match digitsToNat ((l.drop pre.length).take (l.length - pre.length - suf.length)) with
    | some n => some (n : Int)
    | none => none
  else none

/-- Go int(v) on a float value truncates toward zero. -/
def goTrunc (q : ℚ) : Int :=
  if 0 ≤ q then ⌊q⌋ else ⌈q⌉

/-- The six field-update closures passed to commonUpdate (lines 517-527). -/
def applyState (ls : LoopState) (v : ℚ) : LoopState := { ls with state := goTrunc v }

def applyNextState (ls : LoopState) (v : ℚ) : LoopState := { ls with nextState := goTrunc v }

def applyLoopPos (ls : LoopState) (v : ℚ) : LoopState := { ls with loopPos := v }

def applyInPeak (ls : LoopState) (v : ℚ) : LoopState := { ls with inPeakMeter := v }

def applyOutPeak (ls : LoopState) (v : ℚ) : LoopState := { ls with outPeakMeter := v }

def applyWet (ls : LoopState) (v : ℚ) : LoopState := { ls with wet := v }

/-- Go commonUpdate (lines 531-552): require at least three arguments,
an int32 first argument equal to the address-derived loop index, a string
second argument equal to the expected control name, and a float32/float64
third argument; on success apply the value to the (lazily created) entry.
Arguments beyond the third are never inspected. -/
def commonUpdate (msg : OscMessage) (ctrl : String)
    (app : LoopState → ℚ → LoopState) (st : GuiState) : GuiState :=
  match msg.args with
  | arg0 :: arg1 :: arg2 :: _ =>
    let loopIdx := parseLoopIndex msg.address
    match arg0 with
    | .int idx =>
      if idx ≠ loopIdx then st
      else
        match arg1 with
        | .str c =>
          if c ≠ ctrl then st
          else
            match arg2 with
            | .float v => setLoopState st loopIdx (app (getLoopState st loopIdx) v)
            | .double v => setLoopState st loopIdx (app (getLoopState st loopIdx) v)
            | _ => st
        | _ => st
    | _ => st
  | _ => st

/-- Go handleOSC (lines 491-529): the inbound dispatcher, with the source's
case order — gain-path regular expression match first, then the "/pong"
handshake reply, then the six substring-matched per-control updates. -/
def handleOSC (msg : OscMessage) (st : GuiState) : GuiState :=
  match matchStripGain msg.address with
  | some id =>
    let idx := id - 1
    if 0 ≤ idx ∧ msg.args.length = 1 then
      match msg.args with
      | [.float v] => setLoopState st idx (applyWet (getLoopState st idx) v)
      | [.double v] => setLoopState st idx (applyWet (getLoopState st idx) v)
      | _ => st
    else st
  | none =>
    if msg.address = "/pong" then
      match msg.args with
      | _ :: _ :: .int v :: _ => { st with loopCount := v }
      | _ => st
    else if goContains msg.address "/update_state" then
      commonUpdate msg "state" applyState st
    else if goContains msg.address "/update_next_state" then
      commonUpdate msg "next_state" applyNextState st
    else if goContains msg.address "/update_loop_pos" then
      commonUpdate msg "loop_pos" applyLoopPos st
    else if goContains msg.address "/update_in_peak_meter" then
      commonUpdate msg "in_peak_meter" applyInPeak st
    else if goContains msg.address "/update_out_peak_meter" then
      commonUpdate msg "out_peak_meter" applyOutPeak st
    else if goContains msg.address "/update_wet" then
      commonUpdate msg "wet" applyWet st
    else st

/-- The gain ceiling constant maxWet = 0.921 (line 308). -/
def maxWet : ℚ := 921 / 1000

/-- Lines 302-312 of the mouse-capture handler: clamp the fraction to
[0, 1], multiply by the 0.921 ceiling, and clamp the product to the
ceiling again.  This is the Input-to-Parameter Mapper of the spec. -/
def levelWet (fill0 : ℚ) : ℚ :=
  let fill1 := if fill0 < 0 then 0 else fill0
  let fill2 := if fill1 > 1 then 1 else fill1
  let wet := fill2 * maxWet
  if wet > maxWet then maxWet else wet

/-- The mouse-capture handler's effect on the store (lines 284-327), from
the resolved (row, col) cell onwards: only header-free rows of the level
column (col 7) within the current loop count are handled; the fraction is
the relative x position over the cell width (0 when the width is not yet
laid out); the computed wet value is written back only when the loop's
entry already exists (the nil check on line 314).  The asynchronous OSC
send is an external effect and not part of the store transition. -/
def mouseLevel (st : GuiState) (row col relX width : Int) : GuiState :=
  if row = 0 then st
  else if col ≠ 7 ∨ row > st.loopCount then st
  else
    let fill : ℚ := if width > 0 then (relX : ℚ) / (width : ℚ) else 0
    let wet := levelWet fill
    match st.loopStates (row - 1) with
    | some ls => setLoopState st (row - 1) { ls with wet := wet }
    | none => st

/-- The meter display constants meterMinDB / meterMaxDB (lines 68-69). -/
def meterMinDB : ℝ := -70

def meterMaxDB : ℝ := 0

/-- Go amplitudeToMeterFill (lines 368-380) over the reals: amplitudes
below 0.00001 display as empty; otherwise the decibel value
20*log10(val) is clamped to [minDB, maxDB] and normalized. -/
noncomputable def amplitudeToMeterFill (val minDB maxDB : ℝ) : ℝ :=
  if val < 1 / 100000 then 0
  else
    let db := 20 * Real.logb 10 val
    let db1 := if db < minDB then minDB else db
    let db2 := if db1 > maxDB then maxDB else db1
    (db2 - minDB) / (maxDB - minDB)

/-- Modelled from the spec: the decibel-domain fraction-to-amplitude
transform the spec attributes to the Input-to-Parameter Mapper
(db = fraction * (maxDB - minDB) + minDB; amplitude = 10 raised to db/20),
which is absent from the current mouse-capture handler.  Stated here only
to compare the handler's actual output against it. -/
noncomputable def specDbAmplitude (fraction : ℝ) : ℝ :=
  (10 : ℝ) ^ ((fraction * (meterMaxDB - meterMinDB) + meterMinDB) / 20)

/-- A one-loop state with an empty store, used as concrete input below. -/
def emptySt : GuiState := ⟨1, fun _ => none⟩

/-- A two-loop state whose loop 0 has a populated entry, used below. -/
def exSt : GuiState := ⟨2, fun i => if i = 0 then some ⟨4, 0, 0, 0, 0, 1/3⟩ else none⟩

/-! ## Theorems -/

/-- Writing the same slot twice keeps only the second write. -/
theorem setLoopState_setLoopState (st : GuiState) (idx : Int) (a b : LoopState) :
    setLoopState (setLoopState st idx a) idx b = setLoopState st idx b := by
  unfold setLoopState
  congr 1
  funext i
  by_cases h : i = idx <;> simp [h]

/-- On an already clamped fraction the level mapper is plain
multiplication by the 0.921 ceiling: every clamp is inactive. -/
theorem levelWet_eq_mul (f : ℚ) (h0 : 0 ≤ f) (h1 : f ≤ 1) :
    levelWet f = f * maxWet := by
  simp only [levelWet, maxWet]
  split_ifs with a b c <;> first | rfl | linarith

/-- C1: the claim states the mapper computes the written amplitude through
the decibel transform 10^((fraction*(maxDB-minDB)+minDB)/20).  False: at
fraction 1/2 the handler writes 1/2 * 0.921 = 0.4605, while the decibel
transform gives 10^(-7/4) < 0.1. -/
theorem c1_counterexample :
    ((levelWet (1/2) : ℚ) : ℝ) ≠ specDbAmplitude (1/2) := by
  have hq : levelWet (1/2) = 921/2000 := by norm_num [levelWet, maxWet]
  have hcast : ((levelWet (1/2) : ℚ) : ℝ) = 921/2000 := by rw [hq]; push_cast; norm_num
  have hspec : specDbAmplitude (1/2) < 1/10 := by
    unfold specDbAmplitude meterMinDB meterMaxDB
    have he : (((1:ℝ)/2) * (0 - (-70)) + (-70)) / 20 = -7/4 := by norm_num
    rw [he]
    have h1 : (10:ℝ) ^ (-7/4 : ℝ) < (10:ℝ) ^ (((-1:ℤ) : ℝ)) :=
      (Real.rpow_lt_rpow_left_iff (by norm_num)).mpr (by norm_num)
    rw [Real.rpow_intCast] at h1
    calc (10:ℝ) ^ (-7/4 : ℝ) < (10:ℝ) ^ (-1:ℤ) := h1
      _ = 1/10 := by norm_num
  rw [hcast]
  intro h
  rw [← h] at hspec
  norm_num at hspec

/-- C1 amended: for every fraction in [0, 1] the mapper computes the
written amplitude linearly, as fraction * 0.921 (the final clamp to the
0.921 ceiling never engages); no decibel-domain transform is applied. -/
theorem c1_amended (f : ℚ) (h0 : 0 ≤ f) (h1 : f ≤ 1) :
    levelWet f = f * maxWet :=
  levelWet_eq_mul f h0 h1

/-- C1 witness: the amended statement evaluated at fraction 1/2. -/
theorem c1_witness : levelWet (1/2) = (1/2) * maxWet :=
  c1_amended (1/2) (by norm_num) (by norm_num)

/-- C2: the claim also states that every fraction at or above the
calibration ceiling 0.98978457 yields amplitude 0.921 within 1e-6.
False: at the ceiling itself the handler yields
0.98978457 * 0.921 = 0.91159158897, about 0.0094 below 0.921. -/
theorem c2_counterexample :
    1/1000000 < |levelWet (98978457/100000000) - 921/1000| := by
  have h : levelWet (98978457/100000000) = 91159158897/100000000000 := by
    norm_num [levelWet, maxWet]
  have hneg : (91159158897/100000000000 : ℚ) - 921/1000 < 0 := by norm_num
  rw [h, abs_of_neg hneg]
  norm_num

/-- C2 amended: for every fraction in [0, 1] the output amplitude lies in
[0, 0.921]; fraction 0 yields amplitude 0; fraction 1 (not the 0.98978457
calibration-ceiling fraction) yields amplitude exactly 0.921, the ceiling
fraction yielding only 0.98978457 * 0.921 = 0.91159158897. -/
theorem c2_amended (f : ℚ) (h0 : 0 ≤ f) (h1 : f ≤ 1) :
    0 ≤ levelWet f ∧ levelWet f ≤ 921/1000 ∧ levelWet 0 = 0 ∧
    levelWet 1 = 921/1000 ∧
    levelWet (98978457/100000000) = 91159158897/100000000000 := by
  have he := levelWet_eq_mul f h0 h1
  refine ⟨?_, ?_, ?_, ?_, ?_⟩
  · rw [he]; unfold maxWet; positivity
  · rw [he]; unfold maxWet; nlinarith
  · norm_num [levelWet, maxWet]
  · norm_num [levelWet, maxWet]
  · norm_num [levelWet, maxWet]

/-- C2 witness: the amended statement evaluated at fraction 3/4. -/
theorem c2_witness :
    0 ≤ levelWet (3/4) ∧ levelWet (3/4) ≤ 921/1000 ∧ levelWet 0 = 0 ∧
    levelWet 1 = 921/1000 ∧
    levelWet (98978457/100000000) = 91159158897/100000000000 :=
  c2_amended (3/4) (by norm_num) (by norm_num)

/-- C3: the claim states that an update message whose loop index is at or
beyond the current channel count leaves the store unchanged.  False: with
loopCount 1, dispatching an update_state message for loop 5 creates loop
5's entry and writes its state field — commonUpdate never consults
loopCount. -/
theorem c3_counterexample :
    emptySt.loopCount = 1 ∧ emptySt.loopStates 5 = none ∧
    (handleOSC ⟨"/sl/5/update_state", [.int 5, .str "state", .float 2]⟩
        emptySt).loopStates 5 = some ⟨2, 0, 0, 0, 0, 0⟩ :=
  ⟨rfl, rfl, rfl⟩

/-- C3 amended: a well-formed per-control update message is applied
regardless of the current channel count; for an index at or beyond
ChannelCount the LoopState entry is lazily created and the field written
just as for an in-range index. -/
theorem c3_amended (st : GuiState) (v : ℚ) (hout : st.loopCount ≤ 5) :
    (handleOSC ⟨"/sl/5/update_state", [.int 5, .str "state", .float v]⟩
        st).loopStates 5 = some (applyState (getLoopState st 5) v) := rfl

/-- C3 witness: the amended statement on the one-loop empty store. -/
theorem c3_witness :
    (handleOSC ⟨"/sl/5/update_state", [.int 5, .str "state", .float 2]⟩
        emptySt).loopStates 5 = some (applyState (getLoopState emptySt 5) 2) :=
  c3_amended emptySt 2 (by norm_num [emptySt])

/-- C4: the claim states the optimistic echo writes the computed amplitude
for every loop index, including one whose LoopState entry has not yet been
created.  False: the handler guards the write with a nil check, so on a
store with no entry for the clicked row nothing is written and no entry is
created. -/
theorem c4_counterexample :
    emptySt.loopCount = 1 ∧ emptySt.loopStates 0 = none ∧
    mouseLevel emptySt 1 7 5 10 = emptySt :=
  ⟨rfl, rfl, rfl⟩

/-- C4 amended: for a pointer event on the level column of an in-range
loop row, the handler writes the computed amplitude into that loop's Wet
field only when the loop's LoopState entry already exists; a missing entry
is not created and the store is left unchanged. -/
theorem c4_amended (st : GuiState) (row relX width : Int) (ls : LoopState)
    (h1 : 1 ≤ row) (h2 : row ≤ st.loopCount)
    (hls : st.loopStates (row - 1) = some ls) :
    mouseLevel st row 7 relX width
      = setLoopState st (row - 1)
          { ls with wet := levelWet (if width > 0 then (relX : ℚ) / (width : ℚ) else 0) } := by
  unfold mouseLevel
  rw [if_neg (by omega : ¬ row = 0),
    if_neg (by push_neg; exact ⟨rfl, h2⟩ : ¬ ((7:Int) ≠ 7 ∨ row > st.loopCount))]
  rw [hls]

/-- C4 witness: the amended statement on a store whose loop 0 entry
exists, with a click halfway across a 10-cell-wide level bar of row 1. -/
theorem c4_witness :
    mouseLevel ⟨1, fun i => if i = 0 then some LoopState.zero else none⟩ 1 7 5 10
      = setLoopState ⟨1, fun i => if i = 0 then some LoopState.zero else none⟩ 0
          { LoopState.zero with
              wet := levelWet (if (10:Int) > 0 then ((5:Int) : ℚ) / ((10:Int) : ℚ) else 0) } :=
  c4_amended ⟨1, fun i => if i = 0 then some LoopState.zero else none⟩ 1 5 10
    LoopState.zero (by norm_num) (by norm_num) (by decide)

/-- C5: the claim states that any argument list other than exactly
[index:int32, control:string, value:float] — including extra trailing
arguments — makes dispatch a no-op.  False: commonUpdate only requires at
least three arguments; a four-argument update_wet message is applied. -/
theorem c5_counterexample :
    emptySt.loopStates 0 = none ∧
    (handleOSC ⟨"/sl/0/update_wet", [.int 0, .str "wet", .float (1/2), .int 7]⟩
        emptySt).loopStates 0 = some ⟨0, 0, 0, 0, 0, 1/2⟩ :=
  ⟨rfl, rfl⟩

/-- C5 amended: dispatch is a no-op when fewer than three arguments are
present or when any of the first three has the wrong type; arguments
beyond the third are ignored, the message being applied from its first
three arguments alone. -/
theorem c5_amended :
    (∀ (msg : OscMessage) (ctrl : String) (app : LoopState → ℚ → LoopState)
        (st : GuiState), msg.args.length < 3 → commonUpdate msg ctrl app st = st) ∧
    (∀ (addr : String) (a0 a1 a2 : OscArg) (rest : List OscArg) (ctrl : String)
        (app : LoopState → ℚ → LoopState) (st : GuiState),
        commonUpdate ⟨addr, a0 :: a1 :: a2 :: rest⟩ ctrl app st
          = commonUpdate ⟨addr, [a0, a1, a2]⟩ ctrl app st) ∧
    (∀ (addr : String) (a0 a1 a2 : OscArg) (rest : List OscArg) (ctrl : String)
        (app : LoopState → ℚ → LoopState) (st : GuiState),
        a0.isInt = false ∨ a1.isStr = false ∨ a2.isFloatLike = false →
        commonUpdate ⟨addr, a0 :: a1 :: a2 :: rest⟩ ctrl app st = st) := by
  refine ⟨?_, ?_, ?_⟩
  · rintro ⟨addr, args⟩ ctrl app st h
    rcases args with _ | ⟨a0, _ | ⟨a1, _ | ⟨a2, rest⟩⟩⟩
    · rfl
    · rfl
    · rfl
    · simp only [List.length_cons] at h; omega
  · intro addr a0 a1 a2 rest ctrl app st; rfl
  · intro addr a0 a1 a2 rest ctrl app st h
    cases a0 with
    | str s => rfl
    | float v => rfl
    | double v => rfl
    | int i =>
      simp only [OscArg.isInt, Bool.false_eq_true, false_or] at h
      by_cases hi : i = parseLoopIndex addr
      · cases a1 with
        | int j => simp [commonUpdate]
        | float v => simp [commonUpdate]
        | double v => simp [commonUpdate]
        | str s =>
          simp only [OscArg.isStr, Bool.false_eq_true, false_or] at h
          by_cases hc : s = ctrl
          · cases a2 with
            | int j => simp [commonUpdate]
            | str t => simp [commonUpdate]
            | float v => simp [OscArg.isFloatLike] at h
            | double v => simp [OscArg.isFloatLike] at h
          · simp [commonUpdate, hc]
      · simp [commonUpdate, hi]

/-- C5 witness: the three amended components at concrete inputs — a
one-argument message, a four-argument message equal in effect to its
three-argument prefix, and a wrongly typed first argument. -/
theorem c5_witness :
    commonUpdate ⟨"/sl/0/update_wet", [.int 0]⟩ "wet" applyWet emptySt = emptySt ∧
    commonUpdate ⟨"/sl/0/update_wet", [.int 0, .str "wet", .float 1, .int 9]⟩
        "wet" applyWet emptySt
      = commonUpdate ⟨"/sl/0/update_wet", [.int 0, .str "wet", .float 1]⟩
          "wet" applyWet emptySt ∧
    commonUpdate ⟨"/sl/0/update_wet", [.str "x", .str "wet", .float 1]⟩
        "wet" applyWet emptySt = emptySt :=
  ⟨c5_amended.1 _ _ _ _ (by decide),
   c5_amended.2.1 "/sl/0/update_wet" (.int 0) (.str "wet") (.float 1) [.int 9]
     "wet" applyWet emptySt,
   c5_amended.2.2 "/sl/0/update_wet" (.str "x") (.str "wet") (.float 1) []
     "wet" applyWet emptySt (by decide)⟩

/-- C6: a well-formed update_wet message whose embedded index and control
name match the address sets exactly that channel's Wet field (preserving
its other fields), changes no other channel and not the channel count, and
dispatching it twice equals dispatching it once. -/
theorem c6_theorem (st : GuiState) (v : ℚ) :
    (handleOSC ⟨"/sl/1/update_wet", [.int 1, .str "wet", .float v]⟩ st).loopStates 1
      = some (applyWet (getLoopState st 1) v) ∧
    (handleOSC ⟨"/sl/1/update_wet", [.int 1, .str "wet", .float v]⟩ st).loopCount
      = st.loopCount ∧
    (∀ j : Int, j ≠ 1 →
      (handleOSC ⟨"/sl/1/update_wet", [.int 1, .str "wet", .float v]⟩ st).loopStates j
        = st.loopStates j) ∧
    handleOSC ⟨"/sl/1/update_wet", [.int 1, .str "wet", .float v]⟩
        (handleOSC ⟨"/sl/1/update_wet", [.int 1, .str "wet", .float v]⟩ st)
      = handleOSC ⟨"/sl/1/update_wet", [.int 1, .str "wet", .float v]⟩ st := by
  have hred : ∀ s : GuiState,
      handleOSC ⟨"/sl/1/update_wet", [.int 1, .str "wet", .float v]⟩ s
        = setLoopState s 1 (applyWet (getLoopState s 1) v) := fun s => rfl
  refine ⟨?_, ?_, ?_, ?_⟩
  · rw [hred]; simp [setLoopState]
  · rw [hred]; rfl
  · intro j hj; rw [hred]; simp [setLoopState, hj]
  · rw [hred st, hred (setLoopState st 1 (applyWet (getLoopState st 1) v))]
    exact setLoopState_setLoopState st 1 (applyWet (getLoopState st 1) v)
      (applyWet (getLoopState st 1) v)

/-- C6 witness: the other-channels component evaluated on a concrete
two-loop store at channel 0. -/
theorem c6_witness :
    (handleOSC ⟨"/sl/1/update_wet", [.int 1, .str "wet", .float (1/5)]⟩
        exSt).loopStates 0 = exSt.loopStates 0 :=
  (c6_theorem exSt (1/5)).2.2.1 0 (by decide)

/-- C7: an update_state message whose embedded int32 index differs from
the loop index parsed from the address's second path segment leaves the
whole state — every LoopState entry and the channel count — unchanged. -/
theorem c7_theorem (st : GuiState) (i : Int) (v : ℚ) (h : i ≠ 2) :
    handleOSC ⟨"/sl/2/update_state", [.int i, .str "state", .float v]⟩ st = st := by
  have hred : handleOSC ⟨"/sl/2/update_state", [.int i, .str "state", .float v]⟩ st
      = if i ≠ 2 then st else setLoopState st 2 (applyState (getLoopState st 2) v) := rfl
  rw [hred, if_pos h]

/-- C7 witness: embedded index 3 against address-derived index 2 leaves
the one-loop empty store unchanged. -/
theorem c7_witness :
    handleOSC ⟨"/sl/2/update_state", [.int 3, .str "state", .float (1/2)]⟩ emptySt
      = emptySt :=
  c7_theorem emptySt 3 (1/2) (by decide)

/-- C8: a /pong message with at least three arguments whose third is the
32-bit integer 4 sets the channel count to 4, whatever the other
arguments; a /pong with only two arguments changes nothing. -/
theorem c8_theorem (st : GuiState) (a0 a1 : OscArg) (rest : List OscArg) :
    handleOSC ⟨"/pong", a0 :: a1 :: .int 4 :: rest⟩ st = { st with loopCount := 4 } ∧
    handleOSC ⟨"/pong", [a0, a1]⟩ st = st :=
  ⟨rfl, rfl⟩

/-- C9: the three calibration points of the amplitude-to-meter-fill
function over the -70 dB .. 0 dB display range: silence maps to 0, unit
amplitude to 1, and the -35 dB amplitude 10^(-35/20) to the exact middle
1/2, each within the stated 1e-6 tolerance (they hold exactly). -/
theorem c9_theorem :
    |amplitudeToMeterFill 0 (-70) 0 - 0| ≤ 1/1000000 ∧
    |amplitudeToMeterFill 1 (-70) 0 - 1| ≤ 1/1000000 ∧
    |amplitudeToMeterFill ((10:ℝ) ^ ((-35:ℝ)/20)) (-70) 0 - 1/2| ≤ 1/1000000 := by
  have h0 : amplitudeToMeterFill 0 (-70) 0 = 0 := by
    unfold amplitudeToMeterFill
    rw [if_pos (by norm_num)]
  have h1 : amplitudeToMeterFill 1 (-70) 0 = 1 := by
    unfold amplitudeToMeterFill
    rw [if_neg (by norm_num)]
    simp only [Real.logb_one, mul_zero]
    rw [if_neg (by norm_num), if_neg (by norm_num)]
    norm_num
  have hm : amplitudeToMeterFill ((10:ℝ) ^ ((-35:ℝ)/20)) (-70) 0 = 1/2 := by
    have hlow : (1/100000 : ℝ) ≤ (10:ℝ) ^ ((-35:ℝ)/20) := by
      have hc : (1/100000 : ℝ) = (10:ℝ) ^ (((-5:ℤ) : ℝ)) := by
        rw [Real.rpow_intCast]; norm_num
      rw [hc]
      exact le_of_lt ((Real.rpow_lt_rpow_left_iff (by norm_num)).mpr (by push_cast; norm_num))
    have hlog : Real.logb 10 ((10:ℝ) ^ ((-35:ℝ)/20)) = (-35:ℝ)/20 :=
      Real.logb_rpow (by norm_num) (by norm_num)
    unfold amplitudeToMeterFill
    rw [if_neg (not_lt.mpr hlow)]
    simp only [hlog]
    rw [show (20:ℝ) * ((-35:ℝ)/20) = -35 by norm_num]
    rw [if_neg (by norm_num), if_neg (by norm_num)]
    norm_num
  rw [h0, h1, hm]
  norm_num

/-- C10: when the address's second path segment does not parse as a
decimal integer, parseLoopIndex falls back to 0; consequently an update
message on such an address whose arguments are [0:int32, matching
control:string, value:float] is applied to loop 0's field instead of
being dropped. -/
theorem c10_theorem :
    (∀ addr : String,
        goAtoi ((splitOnSlash addr.toList).getD 2 []) = none →
        parseLoopIndex addr = 0) ∧
    (∀ (st : GuiState) (v : ℚ),
        handleOSC ⟨"/sl/abc/update_wet", [.int 0, .str "wet", .float v]⟩ st
          = setLoopState st 0 (applyWet (getLoopState st 0) v)) := by
  constructor
  · intro addr h
    simp only [parseLoopIndex, h]
    split <;> rfl
  · intro st v
    rfl

/-- C10 witness: both components at the unparseable segment "abc" and on
the one-loop empty store. -/
theorem c10_witness :
    parseLoopIndex "/sl/abc/update_wet" = 0 ∧
    handleOSC ⟨"/sl/abc/update_wet", [.int 0, .str "wet", .float (1/3)]⟩ emptySt
      = setLoopState emptySt 0 (applyWet (getLoopState emptySt 0) (1/3)) :=
  ⟨c10_theorem.1 "/sl/abc/update_wet" (by decide), c10_theorem.2 emptySt (1/3)⟩

end SooperGUI
